import Mathlib

/-
Verification of the request-processing core of the emulated camera HAL
(EmulatedRequestProcessor.cpp).  The C++ source is shallowly embedded:
pure computations become Lean functions, the producer/consumer queue
becomes an explicit step relation, and the opaque collaborators (handle
importer, sync fences, request-state, sensor) become an environment of
abstract functions.  Machine integers in the source never overflow in the
regimes the theorems quantify over, so they are modelled as Nat/Int.
-/

namespace EmulatedCamera

/-- Status codes used by the source (`status_t`): `OK`, `BAD_VALUE`
(invalid argument), `TIMED_OUT`.  Other codes never occur in this file. -/
inductive Status where
  | OK
  | BAD_VALUE
  | TIMED_OUT
  deriving DecidableEq, Repr

/-- Buffer completion status (`BufferStatus` in the HAL types): the record
status starts as `kError` and is flipped to `kOk` only outside this core. -/
inductive BufferStatus where
  | kOk
  | kError
  deriving DecidableEq, Repr

/-- Error codes carried by a `NotifyMessage` of type `kError`. -/
inductive ErrorCode where
  | kErrorRequest
  | kErrorResult
  deriving DecidableEq, Repr

/-- Pixel format tag `HAL_PIXEL_FORMAT_RGBA_8888`. -/
def HAL_PIXEL_FORMAT_RGBA_8888 : Nat := 1

/-- Pixel format tag `HAL_PIXEL_FORMAT_RGB_888`. -/
def HAL_PIXEL_FORMAT_RGB_888 : Nat := 3

/-- Pixel format tag `HAL_PIXEL_FORMAT_RAW16`. -/
def HAL_PIXEL_FORMAT_RAW16 : Nat := 0x20

/-- Pixel format tag `HAL_PIXEL_FORMAT_BLOB`. -/
def HAL_PIXEL_FORMAT_BLOB : Nat := 0x21

/-- Pixel format tag `HAL_PIXEL_FORMAT_YCBCR_420_888`. -/
def HAL_PIXEL_FORMAT_YCBCR_420_888 : Nat := 0x23

/-- Pixel format tag `HAL_PIXEL_FORMAT_Y16`. -/
def HAL_PIXEL_FORMAT_Y16 : Nat := 0x20363159

/-- Data-space tag `HAL_DATASPACE_DEPTH`. -/
def HAL_DATASPACE_DEPTH : Nat := 0x1000

/-- Data-space tag `HAL_DATASPACE_V0_JFIF`. -/
def HAL_DATASPACE_V0_JFIF : Nat := 0x8C20000

/-- Modelled from the spec: `align(x, n)` rounds `x` up to the next
multiple of `n` (the `AlignTo` helper lives in a header outside the
provided source; the spec's format table uses it as plain round-up). -/
def AlignTo (value alignment : Nat) : Nat :=
  ((value + alignment - 1) / alignment) * alignment

/-- Stream descriptor (`EmulatedStream`): the fields of the source struct
that the embedded functions read. -/
structure EmulatedStream where
  width : Nat
  height : Nat
  override_format : Nat
  override_data_space : Nat
  buffer_size : Nat
  producer_usage : Nat
  is_input : Bool
  deriving DecidableEq, Repr

/-- Opaque settings blob (`HalCameraMetadata`), identified by its
contents; `Option Settings` models the nullable `unique_ptr`. -/
abbrev Settings := Nat

/-- Model of `HalCameraMetadata::Clone`: cloning a null pointer yields a
null pointer, cloning a blob yields an equal blob. -/
def HalCameraMetadataClone (s : Option Settings) : Option Settings := s

/-- Pipeline callback (`HwlPipelineCallback`): `notify` is a nullable
function pointer, modelled by the identity of its target (`none` = null). -/
structure HwlPipelineCallback where
  notify : Option Nat
  deriving DecidableEq, Repr

/-- Stream buffer as submitted by the framework (`StreamBuffer`): stream
id, opaque buffer-handle identity, nullable acquire fence handle, status. -/
structure StreamBuffer where
  stream_id : Nat
  buffer : Nat
  acquire_fence : Option Nat
  status : BufferStatus
  deriving DecidableEq, Repr

/-- Memory-layout variant of a resolved buffer: untouched, flat image
plane (stride + size, pointer omitted), or planar YCbCr layout (the three
plane pointers are omitted, only the layout metadata is kept). -/
inductive Plane where
  | unlocked
  | img (stride buffer_size : Nat)
  | yuv (y_stride cbcr_stride cbcr_step : Nat)
  deriving DecidableEq, Repr

/-- Resolved buffer record (`SensorBuffer`): every field of the source
struct that this core reads or writes.  `acquire_fence_fd = -1` models the
record having no imported fence descriptor, matching the spec's "records
without a fence". -/
structure SensorBuffer where
  width : Nat
  height : Nat
  format : Nat
  dataSpace : Nat
  stream_buffer : StreamBuffer
  pipeline_id : Nat
  callback : HwlPipelineCallback
  frame_number : Nat
  camera_id : Nat
  is_input : Bool
  acquire_fence_fd : Int
  plane : Plane
  deriving DecidableEq, Repr

/-- Pending request (`PendingRequest`): cloned settings blob plus the two
owned (nullable) lists of resolved buffers. -/
structure PendingRequest where
  settings : Option Settings
  input_buffers : Option (List SensorBuffer)
  output_buffers : Option (List SensorBuffer)
  deriving DecidableEq, Repr

/-- Request as submitted to `ProcessPipelineRequests`
(`HwlPipelineRequest`). -/
structure HwlPipelineRequest where
  pipeline_id : Nat
  settings : Option Settings
  output_buffers : List StreamBuffer
  input_buffers : List StreamBuffer
  deriving DecidableEq, Repr

/-- Pipeline table entry (`EmulatedPipeline`): the stream table (the
source looks streams up with `unordered_map::at`, and the caller
guarantees presence, so the table is modelled total) and the callback. -/
structure EmulatedPipeline where
  streams : Nat → EmulatedStream
  cb : HwlPipelineCallback

/-- Observable invocation of a notify callback: the target called (`none`
models a call through a null pointer), the pipeline id argument, and the
fields of the `NotifyMessage` of type `kError` that the source builds. -/
structure Notification where
  target : Option Nat
  pipeline_id : Nat
  frame_number : Nat
  error_stream_id : Int
  error_code : ErrorCode
  deriving DecidableEq, Repr

/-- Observable event of a `Flush` call: the sensor collaborator's flush,
or a notify invocation. -/
inductive FlushEvent where
  | sensorFlush
  | note (n : Notification)
  deriving DecidableEq, Repr

/-- Record of a `SetCurrentRequest` dispatch to the sensor collaborator:
the settings blob that was resolved for it, and the acquired buffers. -/
structure DispatchRec where
  pipeline_id : Nat
  frame_number : Nat
  settings_blob : Option Settings
  input_buffers : Option (List SensorBuffer)
  output_buffers : List SensorBuffer
  deriving DecidableEq, Repr

/-- Environment of opaque collaborators: the handle importer (lock,
YCbCr lock, fence import), the kernel fence wait, the input-format
normalization of the sensor, the request-state settings resolution, and
the sensor flush status.  Modelled from the spec, which treats all of
them as opaque capabilities that may fail independently per buffer. -/
structure Env where
  lockOk : StreamBuffer → Bool
  lockYCbCrOk : StreamBuffer → Bool
  yuvYStride : StreamBuffer → Nat
  yuvCStride : StreamBuffer → Nat
  yuvChromaStep : StreamBuffer → Nat
  importFence : Nat → Option Int
  syncWait : Int → Status
  overrideFormat : Nat → Nat
  initSettings : Option Settings → Status
  sensorFlushStat : Status

/-- Embedding of `EmulatedRequestProcessor::GetBufferSizeAndStride`
(EmulatedRequestProcessor.cpp:148-190).  Returns `(stride, size)` on
success.  The `size == nullptr` out-parameter check of the source is not
representable (callers always pass a valid pointer). -/
def GetBufferSizeAndStride (stream : EmulatedStream) : Except Status (Nat × Nat) :=
  if stream.override_format = HAL_PIXEL_FORMAT_RGB_888 then
    let stride := stream.width * 3
    .ok (stride, stride * stream.width)
  else if stream.override_format = HAL_PIXEL_FORMAT_RGBA_8888 then
    let stride := stream.width * 4
    .ok (stride, stride * stream.width)
  else if stream.override_format = HAL_PIXEL_FORMAT_Y16 then
    if stream.override_data_space = HAL_DATASPACE_DEPTH then
      let stride := AlignTo (AlignTo stream.width 2 * 2) 16
      .ok (stride, stride * AlignTo stream.height 2)
    else
      .error .BAD_VALUE
  else if stream.override_format = HAL_PIXEL_FORMAT_BLOB then
    if stream.override_data_space = HAL_DATASPACE_V0_JFIF then
      .ok (stream.buffer_size, stream.buffer_size)
    else
      .error .BAD_VALUE
  else if stream.override_format = HAL_PIXEL_FORMAT_RAW16 then
    let stride := stream.width * 2
    .ok (stride, stride * stream.width)
  else
    .error .BAD_VALUE

/-- Embedding of `EmulatedRequestProcessor::LockSensorBuffer`
(EmulatedRequestProcessor.cpp:192-241): returns the status together with
the (possibly updated) record.  Note the source quirk at line 231: in the
flat-buffer path, when `importer.lock` returns null the function executes
`return ret` where `ret` still holds `OK` from `GetBufferSizeAndStride`,
so a flat-format lock failure reports success with the plane left
unset. -/
def LockSensorBuffer (env : Env) (stream : EmulatedStream)
    (handle : StreamBuffer) (sb : SensorBuffer) : Status × SensorBuffer :=
  if stream.override_format = HAL_PIXEL_FORMAT_YCBCR_420_888 then
    if env.lockYCbCrOk handle then
      (.OK, { sb with plane := .yuv (env.yuvYStride handle) (env.yuvCStride handle)
                                    (env.yuvChromaStep handle) })
    else
      (.BAD_VALUE, sb)
  else
    match GetBufferSizeAndStride stream with
    | .ok (stride, buffer_size) =>
        if env.lockOk handle then
          (.OK, { sb with plane := .img stride buffer_size })
        else
          (.OK, sb)
    | .error _ => (.BAD_VALUE, sb)

/-- Embedding of `EmulatedRequestProcessor::CreateSensorBuffer`
(EmulatedRequestProcessor.cpp:243-286).  `Except Unit` models the null
dereference of the source: when `LockSensorBuffer` fails the record is
released and set to null (line 271-272), yet the fence-import block at
line 275-283 still dereferences `buffer` whenever an acquire fence is
present.  `.ok none` is a dropped buffer (returned null), `.ok (some b)`
a resolved record. -/
def CreateSensorBuffer (env : Env) (camera_id frame_number : Nat)
    (emulated_stream : EmulatedStream) (pipeline_id : Nat)
    (callback : HwlPipelineCallback) (stream_buffer : StreamBuffer) :
    Except Unit (Option SensorBuffer) :=
  let stream :=
    if emulated_stream.is_input then
      { emulated_stream with
          override_format := env.overrideFormat emulated_stream.override_format }
    else emulated_stream
  let buffer : SensorBuffer := {
    width := stream.width
    height := stream.height
    format := stream.override_format
    dataSpace := stream.override_data_space
    stream_buffer := { stream_buffer with status := .kError }
    pipeline_id := pipeline_id
    callback := callback
    frame_number := frame_number
    camera_id := camera_id
    is_input := stream.is_input
    acquire_fence_fd := -1
    plane := .unlocked }
  let lockRes := LockSensorBuffer env stream stream_buffer buffer
  let buf : Option SensorBuffer := if lockRes.1 = .OK then some lockRes.2 else none
  match stream_buffer.acquire_fence with
  | none => .ok buf
  | some fence =>
      match buf with
      | none => .error ()
      | some b =>
          match env.importFence fence with
          | some fd => .ok (some { b with acquire_fence_fd := fd })
          | none => .ok none

/-- Loop body of `CreateSensorBuffers` (EmulatedRequestProcessor.cpp:109-115):
resolve each stream buffer in order, keeping only the non-null records and
propagating the null-dereference outcome. -/
def CreateSensorBuffersLoop (env : Env) (camera_id frame_number : Nat)
    (streams : Nat → EmulatedStream) (pipeline_id : Nat)
    (cb : HwlPipelineCallback) : List StreamBuffer → Except Unit (List SensorBuffer)
  | [] => .ok []
  | b :: rest => do
      let sb ← CreateSensorBuffer env camera_id frame_number (streams b.stream_id)
                  pipeline_id cb b
      let others ← CreateSensorBuffersLoop env camera_id frame_number streams
                      pipeline_id cb rest
      match sb with
      | some s => .ok (s :: others)
      | none => .ok others

/-- Embedding of `EmulatedRequestProcessor::CreateSensorBuffers`
(EmulatedRequestProcessor.cpp:99-118): an empty submission list yields a
null list (`none`); otherwise the resolved (possibly empty) list. -/
def CreateSensorBuffers (env : Env) (camera_id frame_number : Nat)
    (buffers : List StreamBuffer) (streams : Nat → EmulatedStream)
    (pipeline_id : Nat) (cb : HwlPipelineCallback) :
    Except Unit (Option (List SensorBuffer)) :=
  if buffers.isEmpty then .ok none
  else do
    let sbs ← CreateSensorBuffersLoop env camera_id frame_number streams
                 pipeline_id cb buffers
    .ok (some sbs)

/-- Loop body of `EmulatedRequestProcessor::AcquireBuffers`
(EmulatedRequestProcessor.cpp:297-313): for each record with a
non-negative fence descriptor, perform the fence wait; the record is kept
exactly when the wait (or absence of a fence) leaves `ret == OK`, and the
source erases every record from the input list as it goes. -/
def acquireLoop (env : Env) : List SensorBuffer → List SensorBuffer
  | [] => []
  | b :: rest =>
      let ret : Status := if b.acquire_fence_fd ≥ 0 then env.syncWait b.acquire_fence_fd else .OK
      if ret = .OK then b :: acquireLoop env rest else acquireLoop env rest

/-- Embedding of `EmulatedRequestProcessor::AcquireBuffers`
(EmulatedRequestProcessor.cpp:288-316): null or empty input yields a null
list, otherwise the records surviving the fence wait. -/
def AcquireBuffers (env : Env) : Option (List SensorBuffer) → Option (List SensorBuffer)
  | none => none
  | some bs => if bs.isEmpty then none else some (acquireLoop env bs)

/-- Model of the `request.output_buffers->at(0)` access pattern: `none`
when the list pointer is null (undefined behaviour) or the list is empty
(`at` throws); `some b` gives the first record. -/
def frontBuffer : Option (List SensorBuffer) → Option SensorBuffer
  | none => none
  | some [] => none
  | some (b :: _) => some b

/-- Embedding of `EmulatedRequestProcessor::NotifyFailedRequest`
(EmulatedRequestProcessor.cpp:120-131): reads the first output buffer
(partial, see `frontBuffer`), and invokes the notify callback with a
`kErrorRequest` message only when that callback is non-null. -/
def NotifyFailedRequest (request : PendingRequest) : Option (List Notification) :=
  match frontBuffer request.output_buffers with
  | none => none
  | some b0 =>
      match b0.callback.notify with
      | some t => some [{ target := some t
                          pipeline_id := b0.pipeline_id
                          frame_number := b0.frame_number
                          error_stream_id := -1
                          error_code := .kErrorRequest }]
      | none => some []

/-- Drain loop of `Flush` (EmulatedRequestProcessor.cpp:139-143): notify
and pop every pending request in FIFO order. -/
def flushDrain : List PendingRequest → Option (List Notification)
  | [] => some []
  | r :: rest => do
      let ns ← NotifyFailedRequest r
      let more ← flushDrain rest
      some (ns ++ more)

/-- Embedding of `EmulatedRequestProcessor::Flush`
(EmulatedRequestProcessor.cpp:133-146): under the processing lock, first
flush the sensor collaborator, then drain the queue, failing each request;
returns the sensor's flush status, the event trace, and the final (empty)
queue.  `none` models the undefined first-buffer access inside
`NotifyFailedRequest`. -/
def Flush (env : Env) (q : List PendingRequest) :
    Option (Status × List FlushEvent × List PendingRequest) := do
  let ret := env.sensorFlushStat
  let notes ← flushDrain q
  some (ret, .sensorFlush :: notes.map .note, [])

/-- Result of one iteration of the worker loop body: the notify calls
made, the dispatch to the sensor (if any), the settings blob passed to
`InitializeSensorSettings` (if the queue was non-empty), the new
last-applied settings, and the queue after the pop. -/
structure IterOut where
  events : List Notification
  dispatched : Option DispatchRec
  usedCall : Option (Option Settings)
  last : Option Settings
  queue : List PendingRequest
  deriving DecidableEq, Repr

/-- Embedding of one iteration of
`EmulatedRequestProcessor::RequestProcessorLoop`
(EmulatedRequestProcessor.cpp:321-369), the locked region only: peek the
head request (partial first-buffer access, see `frontBuffer`), resolve
settings (updating `last_settings_` only when the request carries
settings), acquire output buffers, then either dispatch to the sensor or
make exactly one unconditional `kErrorResult` notify call; the head is
popped in both branches.  The vsync wait after the region is outside the
observable state. -/
def RequestProcessorIteration (env : Env) (last : Option Settings) :
    List PendingRequest → Option IterOut
  | [] => some { events := [], dispatched := none, usedCall := none,
                 last := last, queue := [] }
  | r :: rest =>
      match frontBuffer r.output_buffers with
      | none => none
      | some b0 =>
          let frame_number := b0.frame_number
          let notify_callback := b0.callback
          let pipeline_id := b0.pipeline_id
          let used : Option Settings :=
            match r.settings with
            | some s => HalCameraMetadataClone (some s)
            | none => HalCameraMetadataClone last
          let ret := env.initSettings used
          let newLast : Option Settings :=
            match r.settings with
            | some s => HalCameraMetadataClone (some s)
            | none => last
          let output_buffers := acquireLoop env (r.output_buffers.getD [])
          if ¬output_buffers.isEmpty ∧ ret = .OK then
            let input_buffers := AcquireBuffers env r.input_buffers
            some { events := []
                   dispatched := some { pipeline_id := pipeline_id
                                        frame_number := frame_number
                                        settings_blob := used
                                        input_buffers := input_buffers
                                        output_buffers := output_buffers }
                   usedCall := some used
                   last := newLast
                   queue := rest }
          else
            some { events := [{ target := notify_callback.notify
                                pipeline_id := pipeline_id
                                frame_number := frame_number
                                error_stream_id := -1
                                error_code := .kErrorResult }]
                   dispatched := none
                   usedCall := some used
                   last := newLast
                   queue := rest }

/-- Run of the worker over a whole queue: the settings blobs passed to
`InitializeSensorSettings`, one per processed request, and the final
last-applied settings. -/
def runWorker (env : Env) (last : Option Settings) :
    List PendingRequest → Option (List (Option Settings) × Option Settings)
  | [] => some ([], last)
  | r :: rest =>
      match RequestProcessorIteration env last (r :: rest) with
      | none => none
      | some it =>
          match runWorker env it.last rest with
          | none => none
          | some (uses, lf) =>
              match it.usedCall with
              | some u => some (u :: uses, lf)
              | none => some (uses, lf)

/-- Last explicitly supplied settings blob of a processed prefix: the
value of `last_settings_` after the worker has consumed `pre`, starting
from `l0`. -/
def lastExplicit (l0 : Option Settings) (pre : List PendingRequest) : Option Settings :=
  pre.foldl (fun acc r => match r.settings with | some s => some s | none => acc) l0

/-- Outcome of the backpressure wait loop of `ProcessPipelineRequests`
(EmulatedRequestProcessor.cpp:71-79): either the loop exits with the
queue below the depth bound (`ok`, with the remaining wait oracle and the
entries the worker consumed meanwhile), or a wait times out. -/
inductive BWRes where
  | ok (q : List PendingRequest) (oracle : List Bool) (consumed : List PendingRequest)
  | timeout (q consumed : List PendingRequest)
  deriving DecidableEq, Repr

/-- Embedding of the `while (pending_requests_.size() > kPipelineDepth)`
wait loop (EmulatedRequestProcessor.cpp:71-79).  Each oracle entry decides
one `wait_for`: `true` means the worker popped the head request and
signalled (the only waker in the source), `false` means the wait timed
out; an exhausted oracle also times out.  The pipeline-depth constant
lives in a header outside the provided source and is kept as the
parameter `depth`. -/
def backpressureWait (depth : Nat) (oracle : List Bool) (q : List PendingRequest) : BWRes :=
  if q.length ≤ depth then .ok q oracle []
  else
    match oracle with
    | [] => .timeout q []
    | b :: rest =>
        if b then
          match q with
          | [] => .timeout q []
          | x :: xs =>
              match backpressureWait depth rest xs with
              | .ok q' o' c => .ok q' o' (x :: c)
              | .timeout qf c => .timeout qf (x :: c)
        else .timeout q []

/-- Default pipeline used only to give `List.getD` a value at indices the
source has already validated. -/
def dfltPipeline : EmulatedPipeline :=
  { streams := fun _ => { width := 0, height := 0, override_format := 0,
                          override_data_space := 0, buffer_size := 0,
                          producer_usage := 0, is_input := false }
    cb := { notify := none } }

/-- Construction of one pending request inside `ProcessPipelineRequests`
(EmulatedRequestProcessor.cpp:81-93): resolve output then input buffers
through `CreateSensorBuffers` and clone the settings. -/
def makePendingRequest (env : Env) (camera_id frame_number : Nat)
    (pipelines : List EmulatedPipeline) (r : HwlPipelineRequest) :
    Except Unit PendingRequest := do
  let pl := (pipelines.get? r.pipeline_id).getD dfltPipeline
  let outs ← CreateSensorBuffers env camera_id frame_number r.output_buffers
                pl.streams r.pipeline_id pl.cb
  let ins ← CreateSensorBuffers env camera_id frame_number r.input_buffers
                pl.streams r.pipeline_id pl.cb
  .ok { settings := HalCameraMetadataClone r.settings
        input_buffers := ins
        output_buffers := outs }

/-- Loop of `EmulatedRequestProcessor::ProcessPipelineRequests`
(EmulatedRequestProcessor.cpp:64-94) with explicit history: for each
request, validate the pipeline id, run the backpressure wait, resolve the
buffers and push.  Besides the status and final queue it returns the
entries the worker consumed during waits and the entries this call
pushed; `none` models the null dereference inside buffer resolution. -/
def ProcessPipelineRequestsLoop (env : Env) (camera_id frame_number depth : Nat)
    (pipelines : List EmulatedPipeline) :
    List HwlPipelineRequest → List Bool → List PendingRequest →
    List PendingRequest → List PendingRequest →
    Option (Status × List PendingRequest × List PendingRequest × List PendingRequest)
  | [], _, q, consumed, pushed => some (.OK, q, consumed, pushed)
  | r :: rest, oracle, q, consumed, pushed =>
      if pipelines.length ≤ r.pipeline_id then some (.BAD_VALUE, q, consumed, pushed)
      else
        match backpressureWait depth oracle q with
        | .timeout qf c => some (.TIMED_OUT, qf, consumed ++ c, pushed)
        | .ok q' oracle' c =>
            match makePendingRequest env camera_id frame_number pipelines r with
            | .error _ => none
            | .ok p =>
                ProcessPipelineRequestsLoop env camera_id frame_number depth pipelines
                  rest oracle' (q' ++ [p]) (consumed ++ c) (pushed ++ [p])

/-- Embedding of `EmulatedRequestProcessor::ProcessPipelineRequests`
(EmulatedRequestProcessor.cpp:57-97), starting with empty histories. -/
def ProcessPipelineRequests (env : Env) (camera_id frame_number depth : Nat)
    (pipelines : List EmulatedPipeline) (requests : List HwlPipelineRequest)
    (oracle : List Bool) (q : List PendingRequest) :
    Option (Status × List PendingRequest × List PendingRequest × List PendingRequest) :=
  ProcessPipelineRequestsLoop env camera_id frame_number depth pipelines
    requests oracle q [] []

/-- Global state of the producer/consumer system: the pending queue plus
the submission and dispatch histories (ghost, for order statements). -/
structure QueueState where
  q : List PendingRequest
  submitted : List PendingRequest
  dispatched : List PendingRequest

/-- Atomic transitions of the queue under the processing mutex, as the
source performs them: a submitter pushes one resolved request only after
the backpressure loop observed `size ≤ depth`
(EmulatedRequestProcessor.cpp:71-93); the worker pops the head after
processing it (EmulatedRequestProcessor.cpp:326,366); `Flush` drains the
whole queue (EmulatedRequestProcessor.cpp:139-143). -/
inductive QStep (depth : Nat) : QueueState → QueueState → Prop
  | push (r : PendingRequest) (s : QueueState) (h : s.q.length ≤ depth) :
      QStep depth s { q := s.q ++ [r], submitted := s.submitted ++ [r],
                      dispatched := s.dispatched }
  | dispatch (r : PendingRequest) (rest : List PendingRequest) (s : QueueState)
      (h : s.q = r :: rest) :
      QStep depth s { q := rest, submitted := s.submitted,
                      dispatched := s.dispatched ++ [r] }
  | popFail (r : PendingRequest) (rest : List PendingRequest) (s : QueueState)
      (h : s.q = r :: rest) :
      QStep depth s { q := rest, submitted := s.submitted,
                      dispatched := s.dispatched }
  | flushAll (s : QueueState) :
      QStep depth s { q := [], submitted := s.submitted,
                      dispatched := s.dispatched }

/-- Initial state: empty queue and histories. -/
def initState : QueueState := { q := [], submitted := [], dispatched := [] }

/-- Reachability of a queue state from the initial state by the atomic
transitions. -/
def ReachableQ (depth : Nat) (s : QueueState) : Prop :=
  Relation.ReflTransGen (QStep depth) initState s

/-- Number of notify invocations in a flush event trace. -/
def noteCount (evs : List FlushEvent) : Nat :=
  evs.countP (fun e => match e with | .note _ => true | .sensorFlush => false)

/-- Notification that `Flush` produces for one queued request: the
`kErrorRequest` message built from the request's first output record,
present exactly when that record's notify callback is non-null. -/
def flushNote (r : PendingRequest) : Option Notification :=
  match frontBuffer r.output_buffers with
  | none => none
  | some b0 =>
      b0.callback.notify.map (fun t =>
        { target := some t, pipeline_id := b0.pipeline_id,
          frame_number := b0.frame_number, error_stream_id := -1,
          error_code := .kErrorRequest })

/-- Environment in which every collaborator operation succeeds. -/
def envAllOk : Env :=
  { lockOk := fun _ => true
    lockYCbCrOk := fun _ => true
    yuvYStride := fun _ => 320
    yuvCStride := fun _ => 160
    yuvChromaStep := fun _ => 1
    importFence := fun f => some (Int.ofNat f)
    syncWait := fun _ => .OK
    overrideFormat := fun f => f
    initSettings := fun _ => .OK
    sensorFlushStat := .OK }

/-- Environment in which every fence wait times out. -/
def envFenceFail : Env := { envAllOk with syncWait := fun _ => .TIMED_OUT }

/-- Environment in which every flat-buffer memory lock fails. -/
def envLockFail : Env := { envAllOk with lockOk := fun _ => false }

/-- Environment in which every YCbCr memory lock fails. -/
def envYuvLockFail : Env := { envAllOk with lockYCbCrOk := fun _ => false }

/-- Sample 640x480 16-bit raw output stream. -/
def raw640Stream : EmulatedStream :=
  { width := 640, height := 480, override_format := HAL_PIXEL_FORMAT_RAW16,
    override_data_space := 0, buffer_size := 0, producer_usage := 0, is_input := false }

/-- Sample 100x50 RGBA output stream. -/
def rgba100Stream : EmulatedStream :=
  { width := 100, height := 50, override_format := HAL_PIXEL_FORMAT_RGBA_8888,
    override_data_space := 0, buffer_size := 0, producer_usage := 0, is_input := false }

/-- Sample compressed stream with declared size 65536 in the JFIF
color-space. -/
def blobStream : EmulatedStream :=
  { width := 1920, height := 1080, override_format := HAL_PIXEL_FORMAT_BLOB,
    override_data_space := HAL_DATASPACE_V0_JFIF, buffer_size := 65536,
    producer_usage := 0, is_input := false }

/-- Sample stream with a format outside the size/stride table. -/
def badFmtStream : EmulatedStream :=
  { width := 320, height := 240, override_format := HAL_PIXEL_FORMAT_YCBCR_420_888,
    override_data_space := 0, buffer_size := 0, producer_usage := 0, is_input := false }

/-- Sample planar YCbCr output stream. -/
def yuvStream : EmulatedStream :=
  { width := 320, height := 240, override_format := HAL_PIXEL_FORMAT_YCBCR_420_888,
    override_data_space := 0, buffer_size := 0, producer_usage := 0, is_input := false }

/-- Sample pipeline callback with a non-null notify target. -/
def cbSample : HwlPipelineCallback := { notify := some 7 }

/-- Sample stream buffer without an acquire fence. -/
def sbufSample : StreamBuffer :=
  { stream_id := 0, buffer := 0, acquire_fence := none, status := .kOk }

/-- Stream buffer without a fence whose memory lock will be made to fail. -/
def lockFailNoFence : StreamBuffer :=
  { stream_id := 0, buffer := 1, acquire_fence := none, status := .kOk }

/-- Stream buffer with fence handle 9 whose memory lock will be made to
fail. -/
def lockFailWithFence : StreamBuffer :=
  { stream_id := 0, buffer := 2, acquire_fence := some 9, status := .kOk }

/-- Resolved record carrying the imported fence descriptor 5. -/
def fencedBuffer : SensorBuffer :=
  { width := 640, height := 480, format := HAL_PIXEL_FORMAT_RAW16, dataSpace := 0,
    stream_buffer := { sbufSample with status := .kError }, pipeline_id := 3,
    callback := cbSample, frame_number := 11, camera_id := 0, is_input := false,
    acquire_fence_fd := 5, plane := .img 1280 819200 }

/-- Resolved record without a fence descriptor. -/
def unfencedBuffer : SensorBuffer := { fencedBuffer with acquire_fence_fd := -1 }

/-- Resolved record whose pipeline callback is null. -/
def nullCbBuffer : SensorBuffer := { unfencedBuffer with callback := { notify := none } }

/-- Record kept by `CreateSensorBuffer` after a flat-format lock failure:
its plane metadata was never written. -/
def keptLockFailBuffer : SensorBuffer :=
  { width := 640, height := 480, format := HAL_PIXEL_FORMAT_RAW16, dataSpace := 0,
    stream_buffer := { lockFailNoFence with status := .kError }, pipeline_id := 0,
    callback := cbSample, frame_number := 11, camera_id := 0, is_input := false,
    acquire_fence_fd := -1, plane := .unlocked }

/-- Pending request with explicit settings and one fence-free output
record. -/
def okRequest : PendingRequest :=
  { settings := some 1, input_buffers := none, output_buffers := some [unfencedBuffer] }

/-- Pending request with explicit settings and one fenced output record. -/
def fencedRequest : PendingRequest :=
  { settings := some 1, input_buffers := none, output_buffers := some [fencedBuffer] }

/-- Pending request with an absent settings blob. -/
def noSettingsRequest : PendingRequest :=
  { settings := none, input_buffers := none, output_buffers := some [unfencedBuffer] }

/-- Pending request whose first output record carries a null callback. -/
def nullCbRequest : PendingRequest :=
  { settings := none, input_buffers := none, output_buffers := some [nullCbBuffer] }

/-- Pending request with an empty resolved output list (every submitted
output buffer was dropped during resolution). -/
def emptyOutRequest : PendingRequest :=
  { settings := none, input_buffers := none, output_buffers := some [] }

/-- Pending request with a null resolved output list (submitted with an
empty output-buffer list). -/
def nullOutRequest : PendingRequest :=
  { settings := none, input_buffers := none, output_buffers := none }

/-- Sample submitted request targeting pipeline 0. -/
def sampleHwlReq : HwlPipelineRequest :=
  { pipeline_id := 0, settings := some 1, output_buffers := [sbufSample],
    input_buffers := [] }

/-- Sample pipeline table entry. -/
def samplePipeline : EmulatedPipeline :=
  { streams := fun _ => raw640Stream, cb := cbSample }

/-- C4: for every stream, `GetBufferSizeAndStride` follows the format
table: 16-bit raw gives stride = width*2 and size = stride*width; 4-byte
RGBA gives stride = width*4 and size = stride*width; 3-byte RGB gives
stride = width*3 and size = stride*width; 16-bit depth (depth color-space
only) gives stride = align(align(width,2)*2,16) and size =
stride*align(height,2); compressed/opaque (JFIF color-space only) gives
stride = size = declared buffer size; any other format, including 16-bit
depth or compressed/opaque with the wrong color-space, fails with
BAD_VALUE. -/
theorem C4_buffer_size_stride_table (s : EmulatedStream) :
    (s.override_format = HAL_PIXEL_FORMAT_RAW16 →
      GetBufferSizeAndStride s = .ok (s.width * 2, s.width * 2 * s.width)) ∧
    (s.override_format = HAL_PIXEL_FORMAT_RGBA_8888 →
      GetBufferSizeAndStride s = .ok (s.width * 4, s.width * 4 * s.width)) ∧
    (s.override_format = HAL_PIXEL_FORMAT_RGB_888 →
      GetBufferSizeAndStride s = .ok (s.width * 3, s.width * 3 * s.width)) ∧
    (s.override_format = HAL_PIXEL_FORMAT_Y16 →
      s.override_data_space = HAL_DATASPACE_DEPTH →
      GetBufferSizeAndStride s =
        .ok (AlignTo (AlignTo s.width 2 * 2) 16,
             AlignTo (AlignTo s.width 2 * 2) 16 * AlignTo s.height 2)) ∧
    (s.override_format = HAL_PIXEL_FORMAT_Y16 →
      s.override_data_space ≠ HAL_DATASPACE_DEPTH →
      GetBufferSizeAndStride s = .error .BAD_VALUE) ∧
    (s.override_format = HAL_PIXEL_FORMAT_BLOB →
      s.override_data_space = HAL_DATASPACE_V0_JFIF →
      GetBufferSizeAndStride s = .ok (s.buffer_size, s.buffer_size)) ∧
    (s.override_format = HAL_PIXEL_FORMAT_BLOB →
      s.override_data_space ≠ HAL_DATASPACE_V0_JFIF →
      GetBufferSizeAndStride s = .error .BAD_VALUE) ∧
    (s.override_format ∉ [HAL_PIXEL_FORMAT_RGB_888, HAL_PIXEL_FORMAT_RGBA_8888,
        HAL_PIXEL_FORMAT_Y16, HAL_PIXEL_FORMAT_BLOB, HAL_PIXEL_FORMAT_RAW16] →
      GetBufferSizeAndStride s = .error .BAD_VALUE) := by
  refine ⟨?_, ?_, ?_, ?_, ?_, ?_, ?_, ?_⟩ <;>
    intro h <;>
    simp only [GetBufferSizeAndStride, h, HAL_PIXEL_FORMAT_RGB_888,
      HAL_PIXEL_FORMAT_RGBA_8888, HAL_PIXEL_FORMAT_Y16, HAL_PIXEL_FORMAT_BLOB,
      HAL_PIXEL_FORMAT_RAW16, HAL_DATASPACE_DEPTH, HAL_DATASPACE_V0_JFIF,
      List.mem_cons, List.mem_singleton, not_or] at *
  · simp
  · simp
  · simp
  · intro hd
    simp [hd]
  · intro hd
    simp [hd]
  · intro hd
    simp [hd]
  · intro hd
    simp [hd]
  · obtain ⟨h1, h2, h3, h4, h5⟩ := h
    simp [h1, h2, h3, h4, h5]

/-- C4 witness: the table evaluated at the spec's concrete examples — a
640x480 RAW16 stream yields stride 1280 and size 819200, a 100x50 RGBA
stream yields stride 400 and size 40000, a JFIF blob stream with declared
size 65536 yields stride = size = 65536, and a YCbCr stream falls outside
the table. -/
theorem C4_buffer_size_stride_table_witness :
    GetBufferSizeAndStride raw640Stream = .ok (1280, 819200) ∧
    GetBufferSizeAndStride rgba100Stream = .ok (400, 40000) ∧
    GetBufferSizeAndStride blobStream = .ok (65536, 65536) ∧
    GetBufferSizeAndStride badFmtStream = .error .BAD_VALUE := by
  refine ⟨?_, ?_, ?_, ?_⟩
  · have h := (C4_buffer_size_stride_table raw640Stream).1 (by rfl)
    simpa [raw640Stream] using h
  · have h := (C4_buffer_size_stride_table rgba100Stream).2.1 (by rfl)
    simpa [rgba100Stream] using h
  · have h := (C4_buffer_size_stride_table blobStream).2.2.2.2.2.1 (by rfl) (by rfl)
    simpa [blobStream] using h
  · exact (C4_buffer_size_stride_table badFmtStream).2.2.2.2.2.2.2 (by decide)

/-- C1 counterexample: a resolved record with the valid fence descriptor
5, whose wait fails, is NOT included in the list returned by
`AcquireBuffers` — the returned list is empty — refuting the claim that
a record whose fence wait times out or fails is still forwarded. -/
theorem C1_counterexample :
    fencedBuffer.acquire_fence_fd ≥ 0 ∧
    envFenceFail.syncWait fencedBuffer.acquire_fence_fd ≠ Status.OK ∧
    AcquireBuffers envFenceFail (some [fencedBuffer]) = some [] := by
  refine ⟨by decide, by decide, rfl⟩

/-- C1 (amended): for every resolved record processed by the
fence-synchronizer step, a record with a valid fence descriptor is kept
exactly when its wait succeeds — on timeout or wait failure it is dropped
from the returned list (a logged condition) — and records without a fence
pass through unchanged; a null or empty input list yields a null result. -/
theorem C1_amended_fence_wait_drop (env : Env) (bs : List SensorBuffer) :
    acquireLoop env bs = bs.filter
      (fun b => decide (b.acquire_fence_fd < 0) ||
                decide (env.syncWait b.acquire_fence_fd = Status.OK)) ∧
    AcquireBuffers env none = none ∧
    AcquireBuffers env (some []) = none ∧
    (bs ≠ [] → AcquireBuffers env (some bs) = some (acquireLoop env bs)) := by
  refine ⟨?_, rfl, rfl, ?_⟩
  · induction bs with
    | nil => rfl
    | cons b rest ih =>
      by_cases hfd : b.acquire_fence_fd ≥ 0
      · by_cases hw : env.syncWait b.acquire_fence_fd = Status.OK
        · simp [acquireLoop, hfd, hw, List.filter_cons, ih, not_lt.mpr hfd]
        · simp [acquireLoop, hfd, hw, List.filter_cons, ih, not_lt.mpr hfd]
      · simp [acquireLoop, hfd, List.filter_cons, ih, lt_of_not_ge hfd]
  · intro h
    cases bs with
    | nil => exact absurd rfl h
    | cons b rest => rfl

/-- C1 witness: the amended statement applied to a two-record list — the
fence-failed record is dropped, the fence-free record passes through. -/
theorem C1_amended_fence_wait_drop_witness :
    acquireLoop envFenceFail [fencedBuffer, unfencedBuffer] =
      List.filter (fun b => decide (b.acquire_fence_fd < 0) ||
          decide (envFenceFail.syncWait b.acquire_fence_fd = Status.OK))
        [fencedBuffer, unfencedBuffer] ∧
    AcquireBuffers envFenceFail (some [fencedBuffer, unfencedBuffer]) =
      some (acquireLoop envFenceFail [fencedBuffer, unfencedBuffer]) :=
  ⟨(C1_amended_fence_wait_drop envFenceFail [fencedBuffer, unfencedBuffer]).1,
   (C1_amended_fence_wait_drop envFenceFail [fencedBuffer, unfencedBuffer]).2.2.2
     (by decide)⟩

/-- C3 (code-bug evaluation): the claim that a memory-lock failure causes
only that buffer to be excluded, with the call as a whole succeeding, is
what the spec states, but the code diverges at two points.  (a) A
flat-format (here RAW16) buffer whose memory lock fails is KEPT in the
resolved list with its plane metadata never written, because
`LockSensorBuffer` returns the pre-lock `ret` (still OK) on that path.
(b) A buffer whose lock path fails with a non-OK status (here a YCbCr
lock failure) while an acquire fence is present makes `CreateSensorBuffer`
dereference the nulled record, so the whole resolution call is undefined
rather than merely dropping that buffer. -/
theorem C3_lock_failure_code_bug :
    CreateSensorBuffers envLockFail 0 11 [lockFailNoFence] (fun _ => raw640Stream)
      0 cbSample = .ok (some [keptLockFailBuffer]) ∧
    keptLockFailBuffer.plane = .unlocked ∧
    CreateSensorBuffer envYuvLockFail 0 11 yuvStream 0 cbSample lockFailWithFence
      = .error () ∧
    CreateSensorBuffers envYuvLockFail 0 11 [lockFailWithFence, lockFailNoFence]
      (fun _ => yuvStream) 0 cbSample = .error () := by
  refine ⟨rfl, rfl, rfl, rfl⟩

/-- C10: every operation consuming a pending request — the worker loop's
per-request step and Flush's failure notification — reads the first
element of the resolved output-buffer list without a null or emptiness
check, so it is well-defined exactly when that list is non-null and
non-empty; for a request whose resolved output list is null (submitted
with no output buffers) or empty (all output buffers dropped during
resolution) the access has no defined result. -/
theorem C10_front_buffer_precondition (ob : Option (List SensorBuffer)) (env : Env)
    (last : Option Settings) (r : PendingRequest) (rest : List PendingRequest) :
    ((frontBuffer ob).isSome ↔ ∃ b t, ob = some (b :: t)) ∧
    ((RequestProcessorIteration env last (r :: rest)).isSome ↔
      (frontBuffer r.output_buffers).isSome) ∧
    ((NotifyFailedRequest r).isSome ↔ (frontBuffer r.output_buffers).isSome) ∧
    RequestProcessorIteration env last [nullOutRequest] = none ∧
    RequestProcessorIteration env last [emptyOutRequest] = none ∧
    NotifyFailedRequest nullOutRequest = none ∧
    NotifyFailedRequest emptyOutRequest = none := by
  refine ⟨?_, ?_, ?_, rfl, rfl, rfl, rfl⟩
  · match ob with
    | none => simp [frontBuffer]
    | some [] => simp [frontBuffer]
    | some (b :: t) => simp [frontBuffer]
  · cases hfb : frontBuffer r.output_buffers with
    | none => simp [RequestProcessorIteration, hfb]
    | some b0 =>
      simp only [RequestProcessorIteration, hfb, Option.isSome_some, iff_true]
      split <;> simp
  · cases hfb : frontBuffer r.output_buffers with
    | none => simp [NotifyFailedRequest, hfb]
    | some b0 =>
      simp only [NotifyFailedRequest, hfb, Option.isSome_some, iff_true]
      cases b0.callback.notify <;> simp

/-- C10 witness: the characterizations applied at concrete undefined and
defined inputs. -/
theorem C10_front_buffer_precondition_witness :
    RequestProcessorIteration envAllOk none [nullOutRequest] = none ∧
    NotifyFailedRequest emptyOutRequest = none ∧
    ((frontBuffer (some [unfencedBuffer])).isSome ↔
      ∃ b t, (some [unfencedBuffer] : Option (List SensorBuffer)) = some (b :: t)) :=
  ⟨(C10_front_buffer_precondition none envAllOk none nullOutRequest []).2.2.2.1,
   (C10_front_buffer_precondition none envAllOk none emptyOutRequest []).2.2.2.2.2.2,
   (C10_front_buffer_precondition (some [unfencedBuffer]) envAllOk none
      nullOutRequest []).1⟩

/-- C2: for every pending request at the head of the queue whose buffer
resolution produced at least one record but whose fence acquisition
yields zero usable output buffers, or whose settings resolution failed,
the worker's step makes exactly one notify call — message kind "result
error" (`kErrorResult`), carrying that request's frame number and no
specific offending stream (`error_stream_id = -1`), addressed to the
request's callback and pipeline — dispatches nothing to the sensor, and
removes the request from the queue. -/
theorem C2_failed_request_result_error (env : Env) (last : Option Settings)
    (r : PendingRequest) (rest : List PendingRequest) (b0 : SensorBuffer)
    (bs : List SensorBuffer)
    (hout : r.output_buffers = some (b0 :: bs))
    (hfail : acquireLoop env (b0 :: bs) = [] ∨
      env.initSettings (match r.settings with
        | some s => some s
        | none => last) ≠ Status.OK) :
    RequestProcessorIteration env last (r :: rest) = some
      { events := [{ target := b0.callback.notify, pipeline_id := b0.pipeline_id,
                     frame_number := b0.frame_number, error_stream_id := -1,
                     error_code := .kErrorResult }]
        dispatched := none
        usedCall := some (match r.settings with | some s => some s | none => last)
        last := (match r.settings with | some s => some s | none => last)
        queue := rest } := by
  have hcond : ¬(¬(acquireLoop env (b0 :: bs)).isEmpty ∧
      env.initSettings (match r.settings with
        | some s => some s
        | none => last) = Status.OK) := by
    rcases hfail with h | h
    · intro hc
      exact hc.1 (by simp [h])
    · intro hc
      exact h hc.2
  simp only [RequestProcessorIteration, hout, frontBuffer, HalCameraMetadataClone,
    Option.getD_some]
  rw [if_neg hcond]

/-- C2 witness: a head request whose only output record carries a fence
whose wait fails acquires zero buffers, and the step produces exactly the
single result-error notification and pops the request. -/
theorem C2_failed_request_result_error_witness :
    RequestProcessorIteration envFenceFail none [fencedRequest] = some
      { events := [{ target := some 7, pipeline_id := 3,
                     frame_number := 11, error_stream_id := -1,
                     error_code := .kErrorResult }]
        dispatched := none
        usedCall := some (some 1)
        last := some 1
        queue := [] } := by
  have h := C2_failed_request_result_error envFenceFail none fencedRequest []
    fencedBuffer [] (by rfl) (Or.inl (by decide))
  simpa [fencedRequest, fencedBuffer, cbSample, sbufSample] using h

/-- Drain loop of `Flush` on a queue whose first-buffer accesses are all
defined: it succeeds and produces exactly the notifications of the
requests whose callback is non-null, in queue order. -/
theorem flushDrain_spec (q : List PendingRequest)
    (hwf : ∀ r ∈ q, (frontBuffer r.output_buffers).isSome) :
    flushDrain q = some (q.filterMap flushNote) := by
  induction q with
  | nil => rfl
  | cons r rest ih =>
    obtain ⟨b0, hb0⟩ := Option.isSome_iff_exists.mp (hwf r (List.mem_cons_self r rest))
    have hrest := ih (fun x hx => hwf x (List.mem_cons_of_mem _ hx))
    cases hn : b0.callback.notify with
    | none =>
      simp [flushDrain, NotifyFailedRequest, hb0, hn, hrest, List.filterMap_cons,
        flushNote]
    | some t =>
      simp [flushDrain, NotifyFailedRequest, hb0, hn, hrest, List.filterMap_cons,
        flushNote]

/-- Count of notify events in a mapped note trace. -/
theorem noteCount_note_map (ns : List Notification) :
    noteCount (ns.map .note) = ns.length := by
  induction ns with
  | nil => rfl
  | cons n rest ih => simp [noteCount, List.countP_cons] at ih ⊢

/-- C6 counterexample: a Flush call with exactly one queued request whose
first output record carries a null notify callback emits zero "request
error" notifications, not one — refuting the claim that exactly N
notifications are emitted for N queued requests. -/
theorem C6_counterexample :
    [nullCbRequest].length = 1 ∧
    Flush envAllOk [nullCbRequest] = some (Status.OK, [FlushEvent.sensorFlush], []) ∧
    noteCount [FlushEvent.sensorFlush] = 0 :=
  ⟨rfl, rfl, rfl⟩

/-- C6 (amended): for every Flush call whose queued requests all have a
defined first output record, the sensor collaborator's flush is invoked
first and its status is returned; every queued request is removed,
leaving the queue empty; and exactly one "request error" notification —
carrying the frame number, pipeline id and callback taken from that
request's first output buffer — is emitted per queued request whose
notify callback is non-null (a request with a null callback is drained
without a notification). -/
theorem C6_amended_flush_drains (env : Env) (q : List PendingRequest)
    (hwf : ∀ r ∈ q, (frontBuffer r.output_buffers).isSome) :
    Flush env q = some (env.sensorFlushStat,
      .sensorFlush :: (q.filterMap flushNote).map .note, []) ∧
    noteCount (.sensorFlush :: (q.filterMap flushNote).map .note) =
      (q.filterMap flushNote).length := by
  constructor
  · simp [Flush, flushDrain_spec q hwf]
  · simp [noteCount, List.countP_cons]

/-- C6 witness: the amended statement applied to a two-request queue —
the non-null-callback request yields one notification, the null-callback
request none, the queue ends empty and the sensor flush status is
returned. -/
theorem C6_amended_flush_drains_witness :
    Flush envAllOk [okRequest, nullCbRequest] = some (envAllOk.sensorFlushStat,
      .sensorFlush :: (([okRequest, nullCbRequest]).filterMap flushNote).map .note,
      []) ∧
    noteCount (.sensorFlush ::
        (([okRequest, nullCbRequest]).filterMap flushNote).map .note) =
      (([okRequest, nullCbRequest]).filterMap flushNote).length :=
  C6_amended_flush_drains envAllOk [okRequest, nullCbRequest] (by decide)

/-- Settings bookkeeping of one worker step: the blob passed to the
request-state collaborator and the new last-applied blob are both
determined by whether the head request carries settings. -/
theorem iter_settings_step (env : Env) (last : Option Settings) (r : PendingRequest)
    (rest : List PendingRequest) (it : IterOut)
    (h : RequestProcessorIteration env last (r :: rest) = some it) :
    it.usedCall = some (match r.settings with | some s => some s | none => last) ∧
    it.last = (match r.settings with | some s => some s | none => last) ∧
    it.queue = rest := by
  cases hfb : frontBuffer r.output_buffers with
  | none => simp [RequestProcessorIteration, hfb] at h
  | some b0 =>
    simp only [RequestProcessorIteration, hfb, HalCameraMetadataClone] at h
    split at h <;> simp only [Option.some.injEq] at h <;> subst h <;>
      exact ⟨rfl, rfl, rfl⟩

/-- Worker run over a queue: the blob passed to the request-state
collaborator for each processed request is its own settings when present,
and otherwise the last explicitly supplied blob of the processed
prefix. -/
theorem runWorker_settings (env : Env) (q : List PendingRequest) :
    ∀ (l0 : Option Settings) (uses : List (Option Settings)) (lf : Option Settings),
      runWorker env l0 q = some (uses, lf) →
      uses.length = q.length ∧ lf = lastExplicit l0 q ∧
      ∀ i r, q.get? i = some r →
        uses.get? i = some (match r.settings with
          | some s => some s
          | none => lastExplicit l0 (q.take i)) := by
  induction q with
  | nil =>
    intro l0 uses lf h
    simp [runWorker] at h
    obtain ⟨rfl, rfl⟩ := h
    exact ⟨rfl, rfl, fun i r hr => by simp at hr⟩
  | cons r rest ih =>
    intro l0 uses lf h
    rw [runWorker] at h
    cases hit : RequestProcessorIteration env l0 (r :: rest) with
    | none => rw [hit] at h; exact absurd h (by simp)
    | some it =>
      rw [hit] at h
      dsimp only at h
      cases hrun : runWorker env it.last rest with
      | none => rw [hrun] at h; exact absurd h (by simp)
      | some p =>
        obtain ⟨uses', lf'⟩ := p
        rw [hrun] at h
        dsimp only at h
        obtain ⟨hu, hl, -⟩ := iter_settings_step env l0 r rest it hit
        rw [hu] at h
        dsimp only at h
        simp only [Option.some.injEq, Prod.mk.injEq] at h
        obtain ⟨rfl, rfl⟩ := h
        obtain ⟨hlen, hlf, hidx⟩ := ih it.last uses' lf' hrun
        have hcons : lastExplicit l0 (r :: rest) =
            lastExplicit (match r.settings with | some s => some s | none => l0) rest := rfl
        refine ⟨by simp [hlen], ?_, ?_⟩
        · rw [hcons, ← hl, hlf]
        · intro i r' hr'
          cases i with
          | zero =>
            simp only [List.get?] at hr'
            injection hr' with hr'
            subst hr'
            simp [List.take, lastExplicit]
          | succ i =>
            simp only [List.get?] at hr' ⊢
            rw [hidx i r' hr']
            have htake : lastExplicit l0 ((r :: rest).take (i + 1)) =
                lastExplicit it.last (rest.take i) := by
              rw [List.take_succ_cons, hl]
              rfl
            rw [← htake]

/-- Folding over settings-free requests leaves the last-applied blob
unchanged. -/
theorem lastExplicit_all_none (a : Option Settings) (l : List PendingRequest)
    (h : ∀ y ∈ l, y.settings = none) : lastExplicit a l = a := by
  induction l with
  | nil => rfl
  | cons y ys ih =>
    have hy := h y (List.mem_cons_self _ _)
    have hstep : lastExplicit a (y :: ys) = lastExplicit a ys := by
      simp [lastExplicit, List.foldl_cons, hy]
    rw [hstep]
    exact ih (fun z hz => h z (List.mem_cons_of_mem _ hz))

/-- C8: for every pending request dequeued by the worker whose settings
blob is absent, the sensor settings are resolved from a clone of the most
recently supplied non-absent settings blob — the last-applied blob, which
is updated only when a request carries explicit settings; when some
earlier request of the pipeline's lifetime carried explicit settings, the
most recent such blob is exactly what the absent-settings request is
resolved from. -/
theorem C8_settings_reuse (env : Env) :
    (∀ last r rest it, RequestProcessorIteration env last (r :: rest) = some it →
        r.settings = none →
        it.usedCall = some (HalCameraMetadataClone last) ∧ it.last = last) ∧
    (∀ last r rest it s, RequestProcessorIteration env last (r :: rest) = some it →
        r.settings = some s →
        it.usedCall = some (HalCameraMetadataClone (some s)) ∧ it.last = some s) ∧
    (∀ q uses lf, runWorker env none q = some (uses, lf) →
        uses.length = q.length ∧ lf = lastExplicit none q ∧
        ∀ i r, q.get? i = some r → r.settings = none →
          uses.get? i = some (lastExplicit none (q.take i))) ∧
    (∀ l0 pre post r' s, r'.settings = some s → (∀ y ∈ post, y.settings = none) →
        lastExplicit l0 (pre ++ r' :: post) = some s) := by
  refine ⟨?_, ?_, ?_, ?_⟩
  · intro last r rest it h hn
    obtain ⟨h1, h2, -⟩ := iter_settings_step env last r rest it h
    rw [hn] at h1 h2
    exact ⟨h1, h2⟩
  · intro last r rest it s h hs
    obtain ⟨h1, h2, -⟩ := iter_settings_step env last r rest it h
    rw [hs] at h1 h2
    exact ⟨h1, h2⟩
  · intro q uses lf h
    obtain ⟨hlen, hlf, hidx⟩ := runWorker_settings env q none uses lf h
    refine ⟨hlen, hlf, ?_⟩
    intro i r hr hn
    have := hidx i r hr
    rw [hn] at this
    exact this
  · intro l0 pre post r' s hr hpost
    have hstep : lastExplicit l0 (pre ++ r' :: post) = lastExplicit (some s) post := by
      simp [lastExplicit, List.foldl_append, List.foldl_cons, hr]
    rw [hstep]
    exact lastExplicit_all_none (some s) post hpost

/-- C8 witness: running the worker over a request with explicit settings
blob 1 followed by a settings-free request, the second request is
resolved from blob 1, the most recently supplied non-absent blob. -/
theorem C8_settings_reuse_witness :
    List.get? [(some 1 : Option Settings), some 1] 1 =
      some (lastExplicit none (List.take 1 [okRequest, noSettingsRequest])) :=
  ((C8_settings_reuse envAllOk).2.2.1 [okRequest, noSettingsRequest]
      [some 1, some 1] (some 1) rfl).2.2 1 noSettingsRequest rfl rfl

/-- One queue transition preserves the depth bound. -/
theorem qstep_len (depth : Nat) {s t : QueueState} (h : QStep depth s t)
    (hs : s.q.length ≤ depth + 1) : t.q.length ≤ depth + 1 := by
  cases h with
  | push r s hle => simp; omega
  | dispatch r rest s hq =>
    have h1 : s.q.length = rest.length + 1 := by simp [hq]
    simp only []
    omega
  | popFail r rest s hq =>
    have h1 : s.q.length = rest.length + 1 := by simp [hq]
    simp only []
    omega
  | flushAll s => simp

/-- Every reachable queue state respects the depth bound. -/
theorem reachable_bound (depth : Nat) (s : QueueState) (h : ReachableQ depth s) :
    s.q.length ≤ depth + 1 := by
  induction h with
  | refl => simp [initState]
  | tail hab hbc ih => exact qstep_len depth hbc ih

/-- One queue transition preserves the order invariant: the worker-consumed
history followed by the current queue is a subsequence of the submission
history. -/
theorem qstep_sublist (depth : Nat) {s t : QueueState} (h : QStep depth s t)
    (hs : (s.dispatched ++ s.q).Sublist s.submitted) :
    (t.dispatched ++ t.q).Sublist t.submitted := by
  cases h with
  | push r s hle =>
    simpa [← List.append_assoc] using hs.append (List.Sublist.refl [r])
  | dispatch r rest s hq =>
    rw [hq] at hs
    simpa [List.append_assoc] using hs
  | popFail r rest s hq =>
    rw [hq] at hs
    exact ((List.sublist_cons_self r rest).append_left s.dispatched).trans hs
  | flushAll s =>
    simpa using (List.sublist_append_left s.dispatched s.q).trans hs

/-- Every reachable queue state satisfies the order invariant. -/
theorem reachable_sublist (depth : Nat) (s : QueueState) (h : ReachableQ depth s) :
    (s.dispatched ++ s.q).Sublist s.submitted := by
  induction h with
  | refl => simp [initState]
  | tail hab hbc ih => exact qstep_sublist depth hbc ih

/-- The backpressure wait loop only hands control back to the submitter
with the queue at or below the depth bound. -/
theorem backpressureWait_ok_bound (depth : Nat) :
    ∀ (oracle : List Bool) (q q' : List PendingRequest) (o' : List Bool)
      (c : List PendingRequest),
      backpressureWait depth oracle q = .ok q' o' c → q'.length ≤ depth := by
  intro oracle
  induction oracle with
  | nil =>
    intro q q' o' c h
    rw [backpressureWait.eq_def] at h
    split at h
    · cases h
      assumption
    · cases h
  | cons b rest ih =>
    intro q q' o' c h
    rw [backpressureWait.eq_def] at h
    split at h
    · cases h
      assumption
    · rename_i hgt
      dsimp only at h
      by_cases hb : b = true
      · rw [if_pos hb] at h
        cases q with
        | nil => cases h
        | cons x xs =>
          dsimp only at h
          cases hrec : backpressureWait depth rest xs with
          | ok q2 o2 c2 =>
            rw [hrec] at h
            cases h
            exact ih xs q' o' c2 hrec
          | timeout qf c2 => rw [hrec] at h; cases h
      · rw [if_neg hb] at h
        cases h

/-- The backpressure wait loop conserves queue entries: the consumed
entries followed by the remaining queue are exactly the original queue,
on both the success and the timeout path. -/
theorem backpressureWait_conserve (depth : Nat) :
    ∀ (oracle : List Bool) (q : List PendingRequest),
      (∀ q' o' c, backpressureWait depth oracle q = .ok q' o' c → c ++ q' = q) ∧
      (∀ qf c, backpressureWait depth oracle q = .timeout qf c → c ++ qf = q) := by
  intro oracle
  induction oracle with
  | nil =>
    intro q
    constructor
    · intro q' o' c h
      rw [backpressureWait.eq_def] at h
      split at h
      · cases h; rfl
      · cases h
    · intro qf c h
      rw [backpressureWait.eq_def] at h
      split at h
      · cases h
      · cases h; rfl
  | cons b rest ih =>
    intro q
    constructor
    · intro q' o' c h
      rw [backpressureWait.eq_def] at h
      split at h
      · cases h; rfl
      · dsimp only at h
        by_cases hb : b = true
        · rw [if_pos hb] at h
          cases q with
          | nil => cases h
          | cons x xs =>
            dsimp only at h
            cases hrec : backpressureWait depth rest xs with
            | ok q2 o2 c2 =>
              rw [hrec] at h
              cases h
              have := (ih xs).1 q' o' c2 hrec
              simp [← this]
            | timeout qf c2 => rw [hrec] at h; cases h
        · rw [if_neg hb] at h
          cases h
    · intro qf c h
      rw [backpressureWait.eq_def] at h
      split at h
      · cases h
      · dsimp only at h
        by_cases hb : b = true
        · rw [if_pos hb] at h
          cases q with
          | nil => cases h; rfl
          | cons x xs =>
            dsimp only at h
            cases hrec : backpressureWait depth rest xs with
            | ok q2 o2 c2 => rw [hrec] at h; cases h
            | timeout qf2 c2 =>
              rw [hrec] at h
              cases h
              have hcv := (ih xs).2 _ _ hrec
              simp [← hcv]
        · rw [if_neg hb] at h
          cases h; rfl

/-- The submission loop conserves queue entries whatever its outcome:
everything that was queued at entry or pushed by this call is, at exit,
either in the worker-consumed history or still in the queue. -/
theorem loop_conserve (env : Env) (cid fn depth : Nat)
    (pls : List EmulatedPipeline) :
    ∀ (reqs : List HwlPipelineRequest) (oracle : List Bool)
      (q consumed pushed qf cf pf : List PendingRequest) (st : Status),
      ProcessPipelineRequestsLoop env cid fn depth pls reqs oracle q consumed pushed
        = some (st, qf, cf, pf) →
      ∃ np, pf = pushed ++ np ∧ cf ++ qf = (consumed ++ q) ++ np := by
  intro reqs
  induction reqs with
  | nil =>
    intro oracle q consumed pushed qf cf pf st h
    rw [ProcessPipelineRequestsLoop] at h
    cases h
    exact ⟨[], by simp, by simp⟩
  | cons r rest ih =>
    intro oracle q consumed pushed qf cf pf st h
    rw [ProcessPipelineRequestsLoop] at h
    split at h
    · cases h
      exact ⟨[], by simp, by simp⟩
    · cases hbw : backpressureWait depth oracle q with
      | timeout qf2 c2 =>
        rw [hbw] at h
        cases h
        refine ⟨[], by simp, ?_⟩
        have hcv := (backpressureWait_conserve depth oracle q).2 _ _ hbw
        simp [← hcv, List.append_assoc]
      | ok q2 o2 c2 =>
        rw [hbw] at h
        cases hmk : makePendingRequest env cid fn pls r with
        | error e => rw [hmk] at h; cases h
        | ok p =>
          rw [hmk] at h
          obtain ⟨np', hpf, hcons⟩ := ih o2 (q2 ++ [p]) (consumed ++ c2)
            (pushed ++ [p]) qf cf pf st h
          refine ⟨p :: np', by simp [hpf], ?_⟩
          have hq2 := (backpressureWait_conserve depth oracle q).1 q2 o2 c2 hbw
          rw [hcons, ← hq2]
          simp [List.append_assoc]

/-- On the timeout path the submission loop pushed exactly a strict
prefix of the call's requests, each resolved through
`makePendingRequest`, and conserved all queue entries. -/
theorem loop_timeout (env : Env) (cid fn depth : Nat)
    (pls : List EmulatedPipeline) :
    ∀ (reqs : List HwlPipelineRequest) (oracle : List Bool)
      (q consumed pushed qf cf pf : List PendingRequest),
      ProcessPipelineRequestsLoop env cid fn depth pls reqs oracle q consumed pushed
        = some (.TIMED_OUT, qf, cf, pf) →
      ∃ np, pf = pushed ++ np ∧ cf ++ qf = (consumed ++ q) ++ np ∧
        ∃ k, k < reqs.length ∧ np.length = k ∧
          ∀ i, i < k → ∃ r p, reqs.get? i = some r ∧ np.get? i = some p ∧
            makePendingRequest env cid fn pls r = .ok p := by
  intro reqs
  induction reqs with
  | nil =>
    intro oracle q consumed pushed qf cf pf h
    rw [ProcessPipelineRequestsLoop] at h
    cases h
  | cons r rest ih =>
    intro oracle q consumed pushed qf cf pf h
    rw [ProcessPipelineRequestsLoop] at h
    split at h
    · cases h
    · cases hbw : backpressureWait depth oracle q with
      | timeout qf2 c2 =>
        rw [hbw] at h
        cases h
        refine ⟨[], by simp, ?_, 0, by simp, rfl,
          fun i hi => absurd hi (Nat.not_lt_zero i)⟩
        have hcv := (backpressureWait_conserve depth oracle q).2 _ _ hbw
        simp [← hcv, List.append_assoc]
      | ok q2 o2 c2 =>
        rw [hbw] at h
        cases hmk : makePendingRequest env cid fn pls r with
        | error e => rw [hmk] at h; cases h
        | ok p =>
          rw [hmk] at h
          obtain ⟨np', hpf, hcons, k', hk', hlen', hidx'⟩ :=
            ih o2 (q2 ++ [p]) (consumed ++ c2) (pushed ++ [p]) qf cf pf h
          refine ⟨p :: np', by simp [hpf], ?_, k' + 1, by simpa using hk',
            by simp [hlen'], ?_⟩
          · have hq2 := (backpressureWait_conserve depth oracle q).1 q2 o2 c2 hbw
            rw [hcons, ← hq2]
            simp [List.append_assoc]
          · intro i hi
            cases i with
            | zero => exact ⟨r, p, rfl, rfl, hmk⟩
            | succ i =>
              obtain ⟨r2, p2, hr2, hp2, hmk2⟩ := hidx' i (by omega)
              exact ⟨r2, p2, hr2, hp2, hmk2⟩

/-- C5: at every reachable state the submission queue holds at most the
pipeline-depth constant plus one entries; the backpressure loop only lets
a submitter push from a state at or below the bound, so a push that would
exceed the bound waits instead; and no queued request is ever silently
dropped by submission — every entry queued at the start of, or pushed by,
a submission call is at its end either in the worker-consumed history or
still queued. -/
theorem C5_bounded_queue (depth : Nat) :
    (∀ s, ReachableQ depth s → s.q.length ≤ depth + 1) ∧
    (∀ oracle q q' o' c, backpressureWait depth oracle q = .ok q' o' c →
        q'.length ≤ depth) ∧
    (∀ s t r, QStep depth s t → t.q = s.q ++ [r] → s.q.length ≤ depth) ∧
    (∀ env cid fn pls reqs oracle q0 st qf cf pf,
        ProcessPipelineRequests env cid fn depth pls reqs oracle q0 =
          some (st, qf, cf, pf) → cf ++ qf = q0 ++ pf) := by
  refine ⟨reachable_bound depth, backpressureWait_ok_bound depth, ?_, ?_⟩
  · intro s t r hst heq
    cases hst with
    | push r' s hle => exact hle
    | dispatch r' rest s hq =>
      exfalso
      have h1 : rest.length = s.q.length + 1 := by simpa using congrArg List.length heq
      have h2 : s.q.length = rest.length + 1 := by simp [hq]
      omega
    | popFail r' rest s hq =>
      exfalso
      have h1 : rest.length = s.q.length + 1 := by simpa using congrArg List.length heq
      have h2 : s.q.length = rest.length + 1 := by simp [hq]
      omega
    | flushAll s =>
      exfalso
      have h1 : (0 : Nat) = s.q.length + 1 := by simpa using congrArg List.length heq
      omega
  · intro env cid fn pls reqs oracle q0 st qf cf pf h
    obtain ⟨np, hpf, hcons⟩ := loop_conserve env cid fn depth pls reqs oracle
      q0 [] [] qf cf pf st h
    rw [hcons, hpf]
    simp

/-- C5 witness: the bound at the initial state for depth 0; a concrete
backpressure wait that hands back an emptied queue; a concrete push step
starting at or below the bound; and conservation on a concrete timed-out
submission call. -/
theorem C5_bounded_queue_witness :
    initState.q.length ≤ 0 + 1 ∧
    ([] : List PendingRequest).length ≤ 0 ∧
    initState.q.length ≤ 0 ∧
    ([] : List PendingRequest) ++ [fencedRequest] = [fencedRequest] ++ [] :=
  ⟨(C5_bounded_queue 0).1 initState Relation.ReflTransGen.refl,
   (C5_bounded_queue 0).2.1 [true] [fencedRequest] [] [] [fencedRequest] rfl,
   (C5_bounded_queue 0).2.2.1 initState _ okRequest
     (QStep.push okRequest initState (by simp [initState])) rfl,
   (C5_bounded_queue 0).2.2.2 envAllOk 0 11 [samplePipeline] [sampleHwlReq]
     [false] [fencedRequest] .TIMED_OUT [fencedRequest] [] [] rfl⟩

/-- C9: for every pair of requests dispatched to the sensor collaborator,
dispatch order equals submission order — at every reachable state the
dispatch history followed by the still-queued entries is a subsequence of
the submission history (the single worker always takes the head of the
FIFO queue and removes it before examining the next), so in particular
the dispatch history itself is an order-preserving subsequence of the
submission history. -/
theorem C9_fifo_dispatch_order (depth : Nat) (s : QueueState)
    (h : ReachableQ depth s) :
    (s.dispatched ++ s.q).Sublist s.submitted ∧
    s.dispatched.Sublist s.submitted := by
  have h1 := reachable_sublist depth s h
  exact ⟨h1, (List.sublist_append_left s.dispatched s.q).trans h1⟩

/-- C9 witness: after pushing one request and letting the worker dispatch
it, the dispatch history equals the submission history. -/
theorem C9_fifo_dispatch_order_witness :
    (([okRequest] : List PendingRequest) ++ []).Sublist [okRequest] ∧
    ([okRequest] : List PendingRequest).Sublist [okRequest] :=
  C9_fifo_dispatch_order 1
    { q := [], submitted := [okRequest], dispatched := [okRequest] }
    (Relation.ReflTransGen.tail
      (Relation.ReflTransGen.tail Relation.ReflTransGen.refl
        (QStep.push okRequest initState (by simp [initState])))
      (QStep.dispatch okRequest [] _ rfl))

/-- C7: for every `ProcessPipelineRequests` call whose backpressure wait
times out, the call returns the timeout status with: the requests pushed
by the call forming a strict prefix of the call's request list (so no
request is enqueued after the timeout), each pushed entry being the
resolution of the corresponding submitted request, and every entry that
was queued before the timeout — initial or pushed earlier in the same
call — still accounted for: it is either in the worker-consumed history
or still in the final queue (no rollback by the submitter). -/
theorem C7_timeout_no_rollback (env : Env) (cid fn depth : Nat)
    (pls : List EmulatedPipeline) (reqs : List HwlPipelineRequest)
    (oracle : List Bool) (q0 qf cf pf : List PendingRequest)
    (h : ProcessPipelineRequests env cid fn depth pls reqs oracle q0 =
          some (.TIMED_OUT, qf, cf, pf)) :
    cf ++ qf = q0 ++ pf ∧
    ∃ k, k < reqs.length ∧ pf.length = k ∧
      ∀ i, i < k → ∃ r p, reqs.get? i = some r ∧ pf.get? i = some p ∧
        makePendingRequest env cid fn pls r = .ok p := by
  obtain ⟨np, hpf, hcons, k, hk, hlen, hidx⟩ := loop_timeout env cid fn depth pls
    reqs oracle q0 [] [] qf cf pf h
  have hnp : pf = np := by simpa using hpf
  subst hnp
  exact ⟨by simpa using hcons, k, hk, hlen, hidx⟩

/-- C7 witness: a submission of one request against a depth-0 bound with
a queue already holding one entry and a wait that times out returns the
timeout status, pushes nothing, and leaves the pre-existing entry
queued. -/
theorem C7_timeout_no_rollback_witness :
    ([] : List PendingRequest) ++ [fencedRequest] = [fencedRequest] ++ [] :=
  (C7_timeout_no_rollback envAllOk 0 11 0 [samplePipeline] [sampleHwlReq]
    [false] [fencedRequest] [fencedRequest] [] [] rfl).1

end EmulatedCamera
